import Mathlib

/-!
# Device trace offload plugin

A shallow embedding of
`src/runtime_src/xdp/profile/plugin/device_offload/device_offload_plugin.cpp`
(class `xdp::DeviceOffloadPlugin`).

Conventions of the embedding.

* Objects reached through pointers (`DeviceIntf*`, `DeviceTraceOffload*`,
  `DeviceTraceWriter*`) are records of the arguments their constructors
  received; they live outside this translation unit.
* `uint64_t` device ids and the `uint32_t` trace option are natural numbers.
  The ids are only compared, printed and stored; the trace option is built by
  or-ing constants below `0x20`, so no operation on them can wrap.
* Every member function returns the plugin after the call together with the
  list of calls it issued, in order, on its collaborators (the database and its
  static info, the device interface, the offloaders, the writers).
* What a collaborator returns during a call is an argument of the embedded
  function.
-/

namespace xdp

/-! ## Collaborators -/

/-- Values served by `xrt_core::config` (read from xrt.ini), one field per
getter the plugin names. -/
structure Config where
  trace_buffer_size : String
  continuous_trace : Bool
  continuous_trace_interval_ms : Nat
  data_transfer_trace : String
  stall_trace : String
deriving DecidableEq, Repr

/-- A `DeviceIntf*` handed in by the caller; the plugin only forwards it. -/
structure DeviceIntf where
  handle : Nat
deriving DecidableEq, Repr

/-- Result of `new TraceLoggerCreatingDeviceEvents(deviceId)`. -/
structure TraceLoggerCreatingDeviceEvents where
  deviceId : Nat
deriving DecidableEq, Repr

/-- Result of `new DeviceTraceOffload(dev_intf, logger, offload_sleep_ms,
trbuf_size, start_thread)`; the last three field names are the ones the source
gives in its comments on the constructor call. -/
structure DeviceTraceOffload where
  dev_intf : DeviceIntf
  logger : TraceLoggerCreatingDeviceEvents
  offload_sleep_ms : Nat
  trbuf_size : Nat
  start_thread : Bool
deriving DecidableEq, Repr

/-- Result of `new DeviceTraceWriter(filename, deviceId, version, creationTime,
xrtVersion, toolVersion)`. -/
structure DeviceTraceWriter where
  filename : String
  deviceId : Nat
  version : String
  creationTime : String
  xrtVersion : String
  toolVersion : String
deriving DecidableEq, Repr

/-- Calls the plugin issues on its collaborators. -/
inductive Call where
  | claimDeviceOffloadOwnership
  | registerPlugin
  | addDevice (sysfsPath : String)
  | addOpenedFile (name : String) (fileType : String)
  | read_trace_init (offloader : DeviceTraceOffload)
  | read_trace (offloader : DeviceTraceOffload)
  | write (writer : DeviceTraceWriter) (openNewFiles : Bool)
  | startTrace (devInterface : DeviceIntf) (traceOption : Nat)
deriving DecidableEq, Repr

/-! ## The offloader container -/

/-- Effect of `m[k] = v` on the entries of a `std::map`, listed in iteration
order: the entry is inserted at its place in key order, or replaces the entry
that already has the key. -/
def mapAssign {α : Type} : List (Nat × α) → Nat → α → List (Nat × α)
  | [], k, v => [(k, v)]
  | (k', v') :: rest, k, v =>
    if k < k' then (k, v) :: (k', v') :: rest
    else if k = k' then (k, v) :: rest
    else (k', v') :: mapAssign rest k v

/-- Keys of the entries are strictly ascending. -/
def KeysAscending {α : Type} (l : List (Nat × α)) : Prop :=
  (l.map Prod.fst).Pairwise (fun a b => a < b)

/-- Modelled from the spec: the declaration of the member `offloaders` is in
`device_offload_plugin.h`, which is not among the sources; the spec calls it an
associative container from device id to offloader, and the source uses it as
one (`offloaders[deviceId] = offloader`, iteration over pairs with `.second`).
It is taken to be a `std::map<uint64_t, DeviceTraceOffload*>`: its entries,
in iteration order, have strictly ascending keys. -/
def OffloaderMap : Type :=
  { l : List (Nat × DeviceTraceOffload) // KeysAscending l }

namespace OffloaderMap

/-- Entries in iteration order (`for (auto o : offloaders)`). -/
def entries (m : OffloaderMap) : List (Nat × DeviceTraceOffload) := m.val

/-- A default-constructed map. -/
def empty : OffloaderMap := ⟨[], List.Pairwise.nil⟩

/-- Map after `offloaders[k] = v`. -/
def assign (m : OffloaderMap) (k : Nat) (v : DeviceTraceOffload) : OffloaderMap :=
  ⟨mapAssign m.val k v, by
    have hmem : ∀ (l : List (Nat × DeviceTraceOffload)) (x : Nat),
        x ∈ (mapAssign l k v).map Prod.fst → x = k ∨ x ∈ l.map Prod.fst := by
      intro l
      induction l with
      | nil => intro x hx; simpa [mapAssign] using hx
      | cons hd tl ih =>
        intro x hx
        unfold mapAssign at hx
        split_ifs at hx with h1 h2
        · simpa using hx
        · subst h2; simpa using hx
        · simp only [List.map_cons, List.mem_cons] at hx ⊢
          rcases hx with hx | hx
          · exact Or.inr (Or.inl hx)
          · rcases ih x hx with h | h
            · exact Or.inl h
            · exact Or.inr (Or.inr h)
    have hasc : ∀ l : List (Nat × DeviceTraceOffload),
        KeysAscending l → KeysAscending (mapAssign l k v) := by
      intro l
      induction l with
      | nil => intro _; simp [mapAssign, KeysAscending]
      | cons hd tl ih =>
        intro h
        unfold KeysAscending at h ih ⊢
        simp only [List.map_cons, List.pairwise_cons] at h
        unfold mapAssign
        split_ifs with h1 h2
        · simp only [List.map_cons, List.pairwise_cons, List.mem_cons]
          refine ⟨?_, h.1, h.2⟩
          rintro a (rfl | ha)
          · exact h1
          · exact lt_trans h1 (h.1 a ha)
        · subst h2
          simp only [List.map_cons, List.pairwise_cons]
          exact h
        · simp only [List.map_cons, List.pairwise_cons]
          refine ⟨?_, ih h.2⟩
          intro a ha
          rcases hmem tl a ha with rfl | ha
          · omega
          · exact h.1 a ha
    exact hasc m.val m.property⟩

/-- Offloader stored under `k`, if any. -/
def find (m : OffloaderMap) (k : Nat) : Option DeviceTraceOffload :=
  m.val.lookup k

end OffloaderMap

instance : DecidableEq OffloaderMap :=
  fun a b => decidable_of_iff (a.val = b.val) Subtype.ext_iff.symm

/-! ## The plugin -/

/-- Data members of `DeviceOffloadPlugin` that the translation unit reads or
writes (`writers` is inherited from `XDPPlugin`). -/
structure DeviceOffloadPlugin where
  active : Bool
  trace_buffer_size : Nat
  continuous_trace : Bool
  continuous_trace_interval_ms : Nat
  writers : List DeviceTraceWriter
  offloaders : OffloaderMap
deriving DecidableEq

/-- Values the three configuration members hold when the constructor body
starts; the body leaves them untouched on the inactive path. -/
structure Indeterminate where
  trace_buffer_size : Nat
  continuous_trace : Bool
  continuous_trace_interval_ms : Nat
deriving DecidableEq, Repr

/-- Constructor `DeviceOffloadPlugin::DeviceOffloadPlugin()`.

`claimed` is what `db->claimDeviceOffloadOwnership()` returns. `extract` is the
stream extraction `convert >> trace_buffer_size` applied to the text written
with `convert << tb_size` (the member's type is declared in the absent header).

Line 45 reads `continuous_trace = xrt_core::config::get_continuous_trace ;`:
the getter is named, not called. Like its neighbours `get_trace_buffer_size()`
and `get_continuous_trace_interval_ms()` it is a function, so the right-hand
side is a function designator, which converts to a non-null pointer and then to
`true`. `config.continuous_trace` is therefore not consulted. -/
def DeviceOffloadPlugin.construct (claimed : Bool) (config : Config)
    (extract : String → Nat) (indeterminate : Indeterminate) :
    DeviceOffloadPlugin × List Call :=
  let active := claimed
  if !active then
    (DeviceOffloadPlugin.mk active indeterminate.trace_buffer_size
        indeterminate.continuous_trace indeterminate.continuous_trace_interval_ms
        [] OffloaderMap.empty,
      [Call.claimDeviceOffloadOwnership])
  else
    let tb_size := config.trace_buffer_size
    let trace_buffer_size := extract tb_size
    let continuous_trace := true
    let continuous_trace_interval_ms := config.continuous_trace_interval_ms
    (DeviceOffloadPlugin.mk active trace_buffer_size continuous_trace
        continuous_trace_interval_ms [] OffloaderMap.empty,
      [Call.claimDeviceOffloadOwnership, Call.registerPlugin])

/-- Text produced by `std::to_string` for a `uint64_t`: its decimal digits. -/
def to_string (n : Nat) : String := Nat.repr n

/-- Values returned to `addDevice` by the functions it calls:
`db->addDevice(sysfsPath)`, `xdp::getCurrentDateTime()`, `xdp::getXRTVersion()`
and `xdp::getToolVersion()`. -/
structure AddDeviceEnv where
  deviceId : Nat
  creationTime : String
  xrtVersion : String
  toolVersion : String
deriving DecidableEq, Repr

/-- Member function `DeviceOffloadPlugin::addDevice(const std::string& sysfsPath)`. -/
def DeviceOffloadPlugin.addDevice (p : DeviceOffloadPlugin) (sysfsPath : String)
    (env : AddDeviceEnv) : DeviceOffloadPlugin × List Call :=
  if !p.active then (p, [])
  else
    let deviceId := env.deviceId
    let version := "1.0"
    let creationTime := env.creationTime
    let xrtVersion := env.xrtVersion
    let toolVersion := env.toolVersion
    let filename := "device_trace_" ++ to_string deviceId ++ ".csv"
    ({ p with writers := p.writers ++
          [DeviceTraceWriter.mk filename deviceId version creationTime xrtVersion toolVersion] },
      [Call.addDevice sysfsPath, Call.addOpenedFile filename "VP_TRACE"])

/-- What `addOffloader` leaves behind: the plugin, the calls issued, and the
exception that left the function, if one did. -/
structure AttachResult (ε : Type) where
  plugin : DeviceOffloadPlugin
  calls : List Call
  exception : Option ε

/-- Member function
`DeviceOffloadPlugin::addOffloader(uint64_t deviceId, DeviceIntf* devInterface)`.

`read_trace_init` is the behaviour of `offloader->read_trace_init()` on the
offloader just built: it throws (`Except.error`) or returns (`Except.ok`). The
call is an expression statement, so whatever it returns is discarded; an
exception is not caught and leaves `addOffloader` before the map is assigned. -/
def DeviceOffloadPlugin.addOffloader {ε ρ : Type} (p : DeviceOffloadPlugin)
    (deviceId : Nat) (devInterface : DeviceIntf)
    (read_trace_init : DeviceTraceOffload → Except ε ρ) : AttachResult ε :=
  if !p.active then AttachResult.mk p [] none
  else
    let logger := TraceLoggerCreatingDeviceEvents.mk deviceId
    let offloader := DeviceTraceOffload.mk devInterface logger
      p.continuous_trace_interval_ms p.trace_buffer_size p.continuous_trace
    match read_trace_init offloader with
    | Except.error e => AttachResult.mk p [Call.read_trace_init offloader] (some e)
    | Except.ok _ =>
      AttachResult.mk { p with offloaders := p.offloaders.assign deviceId offloader }
        [Call.read_trace_init offloader] none

/-- The value of `traceOption` when `configureTraceIP` reaches `startTrace`. -/
def traceOption (data_transfer_trace stall_trace : String) : Nat :=
  let traceOption := 0
  let traceOption :=
    if data_transfer_trace = "coarse" then traceOption ||| 0x1 else traceOption
  let traceOption :=
    if data_transfer_trace ≠ "off" then traceOption ||| 0x2 else traceOption
  let traceOption :=
    if stall_trace = "pipe" ∨ stall_trace = "all" then traceOption ||| 0x4 else traceOption
  let traceOption :=
    if stall_trace = "dataflow" ∨ stall_trace = "all" then traceOption ||| 0x8
    else traceOption
  let traceOption :=
    if stall_trace = "memory" ∨ stall_trace = "all" then traceOption ||| 0x10
    else traceOption
  traceOption

/-- Member function `DeviceOffloadPlugin::configureTraceIP(DeviceIntf* devInterface)`. The body
does not test `active` and touches no member. -/
def DeviceOffloadPlugin.configureTraceIP (p : DeviceOffloadPlugin) (config : Config)
    (devInterface : DeviceIntf) : DeviceOffloadPlugin × List Call :=
  let data_transfer_trace := config.data_transfer_trace
  let stall_trace := config.stall_trace
  (p, [Call.startTrace devInterface (traceOption data_transfer_trace stall_trace)])

/-- Member function `DeviceOffloadPlugin::writeAll(bool openNewFiles)`. -/
def DeviceOffloadPlugin.writeAll (p : DeviceOffloadPlugin) (openNewFiles : Bool) :
    DeviceOffloadPlugin × List Call :=
  if !p.active then (p, [])
  else
    (p, p.offloaders.entries.map (fun o => Call.read_trace o.2) ++
        p.writers.map (fun w => Call.write w openNewFiles))

/-! ## Sequences of calls -/

/-- One call on the plugin by its owner, with what the collaborators answer
while it runs. -/
inductive Op (ε ρ : Type) where
  | addDevice (sysfsPath : String) (env : AddDeviceEnv)
  | addOffloader (deviceId : Nat) (devInterface : DeviceIntf)
      (read_trace_init : DeviceTraceOffload → Except ε ρ)
  | configureTraceIP (config : Config) (devInterface : DeviceIntf)
  | writeAll (openNewFiles : Bool)

/-- Plugin after one call. -/
def Op.apply {ε ρ : Type} (p : DeviceOffloadPlugin) : Op ε ρ → DeviceOffloadPlugin
  | Op.addDevice sysfsPath env => (p.addDevice sysfsPath env).1
  | Op.addOffloader deviceId devInterface read_trace_init =>
    (p.addOffloader deviceId devInterface read_trace_init).plugin
  | Op.configureTraceIP config devInterface => (p.configureTraceIP config devInterface).1
  | Op.writeAll openNewFiles => (p.writeAll openNewFiles).1

/-- Plugin after a sequence of calls, first call first. -/
def run {ε ρ : Type} (p : DeviceOffloadPlugin) (ops : List (Op ε ρ)) : DeviceOffloadPlugin :=
  ops.foldl Op.apply p

/-- The call is an `addDevice` that the database answers with id `d`. -/
def Op.registers {ε ρ : Type} (d : Nat) : Op ε ρ → Bool
  | Op.addDevice _ env => decide (env.deviceId = d)
  | _ => false

/-- Device id the call hands to `addOffloader`, when it is such a call. -/
def Op.attachedId {ε ρ : Type} : Op ε ρ → Option Nat
  | Op.addOffloader deviceId _ _ => some deviceId
  | _ => none

/-- Device ids handed to `addOffloader` in a sequence of calls. -/
def attachedIds {ε ρ : Type} (ops : List (Op ε ρ)) : List Nat :=
  ops.filterMap Op.attachedId

/-- Number of `addDevice` calls of a sequence that the database answers with
id `d`. -/
def registrations {ε ρ : Type} (ops : List (Op ε ρ)) (d : Nat) : Nat :=
  ops.countP (Op.registers d)

/-- The offloader `addOffloader` builds for a device id and a device interface. -/
def DeviceOffloadPlugin.newOffloader (p : DeviceOffloadPlugin) (deviceId : Nat)
    (devInterface : DeviceIntf) : DeviceTraceOffload :=
  DeviceTraceOffload.mk devInterface (TraceLoggerCreatingDeviceEvents.mk deviceId)
    p.continuous_trace_interval_ms p.trace_buffer_size p.continuous_trace

/-- The writer `addDevice` builds from the answers of its collaborators. -/
def newWriter (env : AddDeviceEnv) : DeviceTraceWriter :=
  DeviceTraceWriter.mk ("device_trace_" ++ to_string env.deviceId ++ ".csv") env.deviceId
    "1.0" env.creationTime env.xrtVersion env.toolVersion

/-- Number of writers of the plugin that carry device id `d`. -/
def writersFor (p : DeviceOffloadPlugin) (d : Nat) : Nat :=
  p.writers.countP (fun w => decide (w.deviceId = d))

/-- Every offloader in the map has exactly one writer with its device id. -/
def OneWriterPerOffloader (p : DeviceOffloadPlugin) : Prop :=
  ∀ e ∈ p.offloaders.entries, writersFor p e.1 = 1

instance (p : DeviceOffloadPlugin) : Decidable (OneWriterPerOffloader p) := by
  unfold OneWriterPerOffloader
  infer_instance

/-! ## Concrete values used to exercise the definitions -/

/-- A configuration with continuous trace switched off. -/
def sampleConfig : Config := Config.mk "4096" false 10 "coarse" "all"

/-- A stream extraction, adequate for texts made of decimal digits only. -/
def sampleExtract (s : String) : Nat :=
  s.data.foldl (fun n c => 10 * n + (c.toNat - 48)) 0

/-- Some device interface. -/
def sampleDev : DeviceIntf := DeviceIntf.mk 7

/-- The plugin built when the ownership claim is granted. -/
def sampleActive : DeviceOffloadPlugin :=
  (DeviceOffloadPlugin.construct true sampleConfig sampleExtract (Indeterminate.mk 0 false 0)).1

/-- The plugin built when the ownership claim is refused. -/
def sampleInactive : DeviceOffloadPlugin :=
  (DeviceOffloadPlugin.construct false sampleConfig sampleExtract (Indeterminate.mk 0 false 0)).1

/-- Answers of the collaborators to an `addDevice` call, with database id `d`. -/
def sampleEnv (d : Nat) : AddDeviceEnv := AddDeviceEnv.mk d "2020-06-01 12:00:00" "2.6.0" "2020.1"

/-- An active plugin with writers for devices 1 and 3 and offloaders attached
for device 3 first and device 1 second. -/
def sampleBusy : DeviceOffloadPlugin :=
  run sampleActive
    [ (Op.addDevice "/sys/bus/pci/devices/0000:01:00.1" (sampleEnv 1) : Op String Bool),
      Op.addDevice "/sys/bus/pci/devices/0000:02:00.1" (sampleEnv 3),
      Op.addOffloader 3 sampleDev (fun _ => Except.ok true),
      Op.addOffloader 1 sampleDev (fun _ => Except.ok true) ]

/-- A `read_trace_init` that returns. -/
def initReturns : DeviceTraceOffload → Except String Bool := fun _ => Except.ok true

/-- Whether a run of `read_trace_init` failed: it threw, or it returned a value
that reports a failure. The declaration of `read_trace_init` is not among the
sources, so which returned values report a failure is the argument
`reportsFailure` (for a function returning `void`, none does). -/
def initFailed {ε ρ : Type} (reportsFailure : ρ → Bool) : Except ε ρ → Bool
  | Except.error _ => true
  | Except.ok r => reportsFailure r

/-- A `read_trace_init` that returns the status `false`, for "not initialised". -/
def initReportsFailure : DeviceTraceOffload → Except String Bool := fun _ => Except.ok false

/-- A `read_trace_init` that throws. -/
def initThrows : DeviceTraceOffload → Except String Bool :=
  fun _ => Except.error "trace buffer allocation failed"

/-! ## Trace option derivation -/

/-- The trace option is decided by which of the tested literals, if any, each
mode string equals. -/
theorem traceOption_cases (t s : String) :
    traceOption t s =
      (if t = "coarse" then 1 else 0) + (if t = "off" then 0 else 2) +
      (if s = "pipe" ∨ s = "all" then 4 else 0) +
      (if s = "dataflow" ∨ s = "all" then 8 else 0) +
      (if s = "memory" ∨ s = "all" then 16 else 0) := by
  unfold traceOption
  by_cases h1 : t = "coarse" <;> by_cases h2 : t = "off" <;>
    by_cases h3 : s = "pipe" ∨ s = "all" <;>
    by_cases h4 : s = "dataflow" ∨ s = "all" <;>
    by_cases h5 : s = "memory" ∨ s = "all" <;>
    simp only [h1, h2, h3, h4, h5, if_true, if_false, ne_eq, not_true_eq_false,
      not_false_eq_true] <;> rfl


/-- Bits of the trace option, read off the mode strings. -/
theorem traceOption_bits (t s : String) :
    ((traceOption t s).testBit 0 = true ↔ t = "coarse") ∧
    ((traceOption t s).testBit 1 = true ↔ t ≠ "off") ∧
    ((traceOption t s).testBit 2 = true ↔ (s = "pipe" ∨ s = "all")) ∧
    ((traceOption t s).testBit 3 = true ↔ (s = "dataflow" ∨ s = "all")) ∧
    ((traceOption t s).testBit 4 = true ↔ (s = "memory" ∨ s = "all")) ∧
    traceOption t s < 32 := by
  rw [traceOption_cases]
  by_cases h1 : t = "coarse"
  · have h2 : ¬ t = "off" := by subst h1; decide
    by_cases h3 : s = "pipe" ∨ s = "all" <;>
      by_cases h4 : s = "dataflow" ∨ s = "all" <;>
      by_cases h5 : s = "memory" ∨ s = "all" <;>
      simp only [h1, h2, h3, h4, h5, if_true, if_false, ne_eq, not_false_eq_true,
        iff_true, iff_false] <;> decide
  · by_cases h2 : t = "off" <;>
      by_cases h3 : s = "pipe" ∨ s = "all" <;>
      by_cases h4 : s = "dataflow" ∨ s = "all" <;>
      by_cases h5 : s = "memory" ∨ s = "all" <;>
      simp only [h1, h2, h3, h4, h5, if_true, if_false, ne_eq, not_false_eq_true,
        not_true_eq_false, iff_true, iff_false] <;> decide

/-- C1: for every pair of mode strings the configuration returns,
`configureTraceIP` calls `startTrace` exactly once, with a value whose bit 0 is
set iff the transfer mode is "coarse", bit 1 iff it is not "off", bit 2 iff the
stall mode is "pipe" or "all", bit 3 iff it is "dataflow" or "all", bit 4 iff it
is "memory" or "all", and which is below 32. -/
theorem configureTraceIP_startTrace_bits (p : DeviceOffloadPlugin) (config : Config)
    (devInterface : DeviceIntf) :
    ∃ m : Nat,
      (p.configureTraceIP config devInterface).2 = [Call.startTrace devInterface m] ∧
      (m.testBit 0 = true ↔ config.data_transfer_trace = "coarse") ∧
      (m.testBit 1 = true ↔ config.data_transfer_trace ≠ "off") ∧
      (m.testBit 2 = true ↔ (config.stall_trace = "pipe" ∨ config.stall_trace = "all")) ∧
      (m.testBit 3 = true ↔ (config.stall_trace = "dataflow" ∨ config.stall_trace = "all")) ∧
      (m.testBit 4 = true ↔ (config.stall_trace = "memory" ∨ config.stall_trace = "all")) ∧
      m < 32 :=
  ⟨traceOption config.data_transfer_trace config.stall_trace, rfl,
    traceOption_bits config.data_transfer_trace config.stall_trace⟩

/-- C2, as stated, fails on its first vector: for ("coarse","all")
`configureTraceIP` starts the trace with 31 (0b11111), not with 29 (0b11101). -/
theorem coarse_all_is_not_29 :
    (sampleActive.configureTraceIP (Config.mk "4096" false 10 "coarse" "all") sampleDev).2
        = [Call.startTrace sampleDev 31] ∧
      (sampleActive.configureTraceIP (Config.mk "4096" false 10 "coarse" "all") sampleDev).2
        ≠ [Call.startTrace sampleDev 29] := by
  decide

/-- C2 (amended): the trace option `configureTraceIP` passes to `startTrace` is
31 (0b11111) for ("coarse","all"), 0 for ("off","off") and 18 (0b10010) for
("fine","memory"). -/
theorem configureTraceIP_vectors (p : DeviceOffloadPlugin) (devInterface : DeviceIntf)
    (tb : String) (ct : Bool) (ms : Nat) :
    (p.configureTraceIP (Config.mk tb ct ms "coarse" "all") devInterface).2
        = [Call.startTrace devInterface 31] ∧
      (p.configureTraceIP (Config.mk tb ct ms "off" "off") devInterface).2
        = [Call.startTrace devInterface 0] ∧
      (p.configureTraceIP (Config.mk tb ct ms "fine" "memory") devInterface).2
        = [Call.startTrace devInterface 18] := by
  refine ⟨?_, ?_, ?_⟩ <;>
    simp only [DeviceOffloadPlugin.configureTraceIP] <;>
    congr 2

/-- C3, as stated, fails for the transfer mode: the unrecognized string "bogus"
does not behave as "off"; with stall mode "off" it starts the trace with 2,
where "off" starts it with 0. -/
theorem unrecognized_transfer_is_not_off :
    ¬ (∀ t s : String, t ≠ "off" → t ≠ "coarse" → t ≠ "fine" → ∀ (c : Config),
        (sampleActive.configureTraceIP
            (Config.mk c.trace_buffer_size c.continuous_trace c.continuous_trace_interval_ms
              t s) sampleDev).2
          = (sampleActive.configureTraceIP
            (Config.mk c.trace_buffer_size c.continuous_trace c.continuous_trace_interval_ms
              "off" s) sampleDev).2) := by
  intro h
  exact absurd (h "bogus" "off" (by decide) (by decide) (by decide) sampleConfig) (by decide)

/-- C3 (amended): no mode string makes `configureTraceIP` fail. A transfer mode
outside "off", "coarse", "fine" gives, with every stall mode, the trace option
of "fine" (device trace enabled, coarse bit clear). A stall mode outside "off",
"pipe", "dataflow", "memory", "all" gives, with every transfer mode, the trace
option of stall mode "off". -/
theorem unrecognized_modes (p : DeviceOffloadPlugin) (devInterface : DeviceIntf)
    (tb : String) (ct : Bool) (ms : Nat) (t s : String)
    (ht : t ≠ "off" ∧ t ≠ "coarse" ∧ t ≠ "fine")
    (hs : s ≠ "off" ∧ s ≠ "pipe" ∧ s ≠ "dataflow" ∧ s ≠ "memory" ∧ s ≠ "all") :
    (∀ s' : String,
        p.configureTraceIP (Config.mk tb ct ms t s') devInterface
          = p.configureTraceIP (Config.mk tb ct ms "fine" s') devInterface) ∧
      (∀ t' : String,
        p.configureTraceIP (Config.mk tb ct ms t' s) devInterface
          = p.configureTraceIP (Config.mk tb ct ms t' "off") devInterface) := by
  obtain ⟨ht1, ht2, _⟩ := ht
  obtain ⟨_, hs2, hs3, hs4, hs5⟩ := hs
  constructor
  · intro s'
    simp only [DeviceOffloadPlugin.configureTraceIP, traceOption_cases, ht1, ht2,
      if_false]
    rfl
  · intro t'
    simp only [DeviceOffloadPlugin.configureTraceIP, traceOption_cases, hs2, hs3, hs4, hs5,
      or_self, if_false]
    rfl

/-- The amended C3 at the transfer mode "bogus" and the stall mode "everything". -/
theorem unrecognized_modes_witness :
    (∀ s' : String,
        sampleActive.configureTraceIP (Config.mk "4096" false 10 "bogus" s') sampleDev
          = sampleActive.configureTraceIP (Config.mk "4096" false 10 "fine" s') sampleDev) ∧
      (∀ t' : String,
        sampleActive.configureTraceIP (Config.mk "4096" false 10 t' "everything") sampleDev
          = sampleActive.configureTraceIP (Config.mk "4096" false 10 t' "off") sampleDev) :=
  unrecognized_modes sampleActive sampleDev "4096" false 10 "bogus" "everything"
    (by decide) (by decide)

/-! ## The flush -/

/-- C4: on an active plugin `writeAll(b)` issues one `read_trace` per entry of
the offloader map, in the map's order, which is ascending in the device id, and
then one `write(b)` per writer, in the order of the writer list; nothing else is
called and the plugin is unchanged. -/
theorem writeAll_drains_then_writes (p : DeviceOffloadPlugin) (openNewFiles : Bool)
    (h : p.active = true) :
    (p.writeAll openNewFiles).2 =
        p.offloaders.entries.map (fun e => Call.read_trace e.2) ++
          p.writers.map (fun w => Call.write w openNewFiles) ∧
      (p.offloaders.entries.map Prod.fst).Pairwise (fun a b => a < b) ∧
      (p.writeAll openNewFiles).1 = p := by
  refine ⟨?_, p.offloaders.property, ?_⟩ <;> simp [DeviceOffloadPlugin.writeAll, h]

/-- C4 on a plugin whose offloaders were attached in the order 3, 1: the drains
come in the order 1, 3 and precede the two writes. -/
theorem writeAll_drains_then_writes_witness :
    sampleBusy.active = true ∧
      ((sampleBusy.writeAll true).2 =
          sampleBusy.offloaders.entries.map (fun e => Call.read_trace e.2) ++
            sampleBusy.writers.map (fun w => Call.write w true) ∧
        (sampleBusy.offloaders.entries.map Prod.fst).Pairwise (fun a b => a < b) ∧
        (sampleBusy.writeAll true).1 = sampleBusy) :=
  ⟨by decide, writeAll_drains_then_writes sampleBusy true (by decide)⟩

/-- The flush of the sample plugin, evaluated: the offloaders, attached in the
order 3, 1, are drained in the order 1, 3, and then the two writers write. -/
theorem sampleBusy_flush_calls :
    (sampleBusy.writeAll true).2 =
      [ Call.read_trace (DeviceTraceOffload.mk sampleDev (TraceLoggerCreatingDeviceEvents.mk 1)
          10 4096 true),
        Call.read_trace (DeviceTraceOffload.mk sampleDev (TraceLoggerCreatingDeviceEvents.mk 3)
          10 4096 true),
        Call.write (DeviceTraceWriter.mk "device_trace_1.csv" 1 "1.0" "2020-06-01 12:00:00"
          "2.6.0" "2020.1") true,
        Call.write (DeviceTraceWriter.mk "device_trace_3.csv" 3 "1.0" "2020-06-01 12:00:00"
          "2.6.0" "2020.1") true ] := by
  decide

/-! ## The inactive plugin -/

/-- C5: on a plugin whose ownership claim was refused, `addDevice`,
`addOffloader` and `writeAll` leave the plugin as it is and call nothing, for
every argument and whatever the collaborators would have answered. -/
theorem inactive_noop {ε ρ : Type} (p : DeviceOffloadPlugin) (sysfsPath : String)
    (env : AddDeviceEnv) (deviceId : Nat) (devInterface : DeviceIntf)
    (read_trace_init : DeviceTraceOffload → Except ε ρ) (openNewFiles : Bool)
    (h : p.active = false) :
    p.addDevice sysfsPath env = (p, []) ∧
      (p.addOffloader deviceId devInterface read_trace_init).plugin = p ∧
      (p.addOffloader deviceId devInterface read_trace_init).calls = [] ∧
      (p.addOffloader deviceId devInterface read_trace_init).exception = none ∧
      p.writeAll openNewFiles = (p, []) := by
  simp [DeviceOffloadPlugin.addDevice, DeviceOffloadPlugin.addOffloader,
    DeviceOffloadPlugin.writeAll, h]

/-- C5 on the plugin built after a refused claim, with a `read_trace_init` that
would throw. -/
theorem inactive_noop_witness :
    sampleInactive.active = false ∧
      (sampleInactive.addDevice "/sys/bus/pci/devices/0000:01:00.1" (sampleEnv 0)
          = (sampleInactive, []) ∧
        (sampleInactive.addOffloader 0 sampleDev initThrows).plugin = sampleInactive ∧
        (sampleInactive.addOffloader 0 sampleDev initThrows).calls = [] ∧
        (sampleInactive.addOffloader 0 sampleDev initThrows).exception = none ∧
        sampleInactive.writeAll true = (sampleInactive, [])) :=
  ⟨by decide,
    inactive_noop sampleInactive "/sys/bus/pci/devices/0000:01:00.1" (sampleEnv 0) 0
      sampleDev initThrows true (by decide)⟩

/-- C6 does not hold of the code: on the plugin built after a refused claim,
`configureTraceIP` still calls `startTrace` on the device interface, here with
31 for the modes ("coarse","all"). -/
theorem configureTraceIP_inactive_starts_trace :
    sampleInactive.active = false ∧
      (sampleInactive.configureTraceIP sampleConfig sampleDev).2
        = [Call.startTrace sampleDev 31] := by
  decide

/-! ## Device registration -/

/-- C8: on an active plugin every `addDevice` call appends one writer, built
from the id the database returned and named "device_trace_" ++ decimal id ++
".csv", after the writers already there; the offloader map is unchanged; the
calls issued are the database registration and one `addOpenedFile` of that name
with type "VP_TRACE". A second call with the same identity appends a second
writer. -/
theorem addDevice_appends_writer (p : DeviceOffloadPlugin) (sysfsPath : String)
    (env env2 : AddDeviceEnv) (h : p.active = true) :
    (p.addDevice sysfsPath env).1.writers = p.writers ++ [newWriter env] ∧
      (newWriter env).deviceId = env.deviceId ∧
      (newWriter env).filename = "device_trace_" ++ Nat.repr env.deviceId ++ ".csv" ∧
      (p.addDevice sysfsPath env).1.offloaders = p.offloaders ∧
      (p.addDevice sysfsPath env).2 =
        [Call.addDevice sysfsPath,
          Call.addOpenedFile ("device_trace_" ++ Nat.repr env.deviceId ++ ".csv") "VP_TRACE"] ∧
      ((p.addDevice sysfsPath env).1.addDevice sysfsPath env2).1.writers
        = p.writers ++ [newWriter env, newWriter env2] := by
  simp [DeviceOffloadPlugin.addDevice, h, newWriter, to_string]

/-- C8 on the freshly built active plugin, the database answering 12 and then
13 to the same identity. -/
theorem addDevice_appends_writer_witness :
    sampleActive.active = true ∧
      ((sampleActive.addDevice "/sys/bus/pci/devices/0000:01:00.1" (sampleEnv 12)).1.writers
          = sampleActive.writers ++ [newWriter (sampleEnv 12)] ∧
        (newWriter (sampleEnv 12)).deviceId = (sampleEnv 12).deviceId ∧
        (newWriter (sampleEnv 12)).filename
          = "device_trace_" ++ Nat.repr (sampleEnv 12).deviceId ++ ".csv" ∧
        (sampleActive.addDevice "/sys/bus/pci/devices/0000:01:00.1" (sampleEnv 12)).1.offloaders
          = sampleActive.offloaders ∧
        (sampleActive.addDevice "/sys/bus/pci/devices/0000:01:00.1" (sampleEnv 12)).2 =
          [Call.addDevice "/sys/bus/pci/devices/0000:01:00.1",
            Call.addOpenedFile ("device_trace_" ++ Nat.repr (sampleEnv 12).deviceId ++ ".csv")
              "VP_TRACE"] ∧
        ((sampleActive.addDevice "/sys/bus/pci/devices/0000:01:00.1" (sampleEnv 12)).1.addDevice
            "/sys/bus/pci/devices/0000:01:00.1" (sampleEnv 13)).1.writers
          = sampleActive.writers ++ [newWriter (sampleEnv 12), newWriter (sampleEnv 13)]) :=
  ⟨by decide,
    addDevice_appends_writer sampleActive "/sys/bus/pci/devices/0000:01:00.1"
      (sampleEnv 12) (sampleEnv 13) (by decide)⟩

/-! ## Attaching an offloader -/

/-- Members of the plugin built after a granted claim: the continuous-trace
member is `true` whatever the configuration says; the other two come from the
configuration. -/
theorem construct_active_members (config : Config) (extract : String → Nat)
    (indeterminate : Indeterminate) :
    (DeviceOffloadPlugin.construct true config extract indeterminate).1.continuous_trace
        = true ∧
      (DeviceOffloadPlugin.construct true config extract indeterminate).1.trace_buffer_size
        = extract config.trace_buffer_size ∧
      (DeviceOffloadPlugin.construct true config extract
          indeterminate).1.continuous_trace_interval_ms
        = config.continuous_trace_interval_ms := by
  simp [DeviceOffloadPlugin.construct]

/-- C9 does not hold of the code: with the continuous-mode flag of the
configuration false, the offloader that `addOffloader` builds and stores on the
active plugin has `start_thread = true`; its sleep interval (10) and buffer
size (4096) are the configured ones. -/
theorem addOffloader_ignores_continuous_flag :
    sampleConfig.continuous_trace = false ∧
      (sampleActive.addOffloader 0 sampleDev initReturns).calls
        = [Call.read_trace_init
            (DeviceTraceOffload.mk sampleDev (TraceLoggerCreatingDeviceEvents.mk 0)
              10 4096 true)] ∧
      (sampleActive.addOffloader 0 sampleDev initReturns).plugin.offloaders.find 0
        = some (DeviceTraceOffload.mk sampleDev (TraceLoggerCreatingDeviceEvents.mk 0)
              10 4096 true) := by
  decide

theorem lookup_mapAssign_self {α : Type} (l : List (Nat × α)) (k : Nat) (v : α) :
    (mapAssign l k v).lookup k = some v := by
  induction l with
  | nil => simp [mapAssign, List.lookup]
  | cons hd tl ih =>
    obtain ⟨k', v'⟩ := hd
    unfold mapAssign
    split_ifs with h1 h2
    · simp [List.lookup]
    · simp [List.lookup]
    · have hne : (k == k') = false := by simpa using h2
      simp [List.lookup, hne, ih]

theorem lookup_mapAssign_other {α : Type} (l : List (Nat × α)) (k : Nat) (v : α) (x : Nat)
    (hx : x ≠ k) : (mapAssign l k v).lookup x = l.lookup x := by
  have hxk : (x == k) = false := by simpa using hx
  induction l with
  | nil => simp [mapAssign, List.lookup, hxk]
  | cons hd tl ih =>
    obtain ⟨k', v'⟩ := hd
    unfold mapAssign
    split_ifs with h1 h2
    · simp [List.lookup, hxk]
    · subst h2
      simp [List.lookup, hxk]
    · by_cases hxk' : x = k'
      · subst hxk'
        simp [List.lookup]
      · have hne : (x == k') = false := by simpa using hxk'
        simp [List.lookup, hne, ih]

/-- Whatever `read_trace_init` returns is discarded: two initialisations that
both return leave the same result, whichever values they return. -/
theorem read_trace_init_result_discarded {ε ρ : Type} (p : DeviceOffloadPlugin)
    (deviceId : Nat) (devInterface : DeviceIntf) (r r' : ρ) :
    p.addOffloader deviceId devInterface (fun _ => (Except.ok r : Except ε ρ))
      = p.addOffloader deviceId devInterface (fun _ => (Except.ok r' : Except ε ρ)) := by
  unfold DeviceOffloadPlugin.addOffloader
  split_ifs <;> rfl

/-- C10, as stated, fails: on the freshly built active plugin, with a
`read_trace_init` that fails by returning the status `false`, `addOffloader`
does not fail (no exception leaves it) and the offloader map is not as before,
it now holds the offloader under device id 0. -/
theorem returned_init_failure_is_dropped :
    initFailed (fun ok => !ok) (initReportsFailure (sampleActive.newOffloader 0 sampleDev))
        = true ∧
      (sampleActive.addOffloader 0 sampleDev initReportsFailure).calls
        = [Call.read_trace_init (sampleActive.newOffloader 0 sampleDev)] ∧
      (sampleActive.addOffloader 0 sampleDev initReportsFailure).exception = none ∧
      sampleActive.offloaders.find 0 = none ∧
      (sampleActive.addOffloader 0 sampleDev initReportsFailure).plugin.offloaders.find 0
        = some (sampleActive.newOffloader 0 sampleDev) ∧
      (sampleActive.addOffloader 0 sampleDev initReportsFailure).plugin ≠ sampleActive := by
  decide

/-- C10 (amended): on an active plugin `addOffloader` calls `read_trace_init`
once, on the offloader it has just built, and nothing else. It fails exactly
when that call throws: the exception reaches the caller and the plugin
(offloader map and writer list) is as before. When the call returns, whatever
value it returns, the map holds the new offloader under the device id, in place
of any earlier one, every other key maps to what it mapped to before, and the
writer list is unchanged. -/
theorem addOffloader_init {ε ρ : Type} (p : DeviceOffloadPlugin) (deviceId : Nat)
    (devInterface : DeviceIntf) (read_trace_init : DeviceTraceOffload → Except ε ρ)
    (h : p.active = true) :
    (p.addOffloader deviceId devInterface read_trace_init).calls
        = [Call.read_trace_init (p.newOffloader deviceId devInterface)] ∧
      ((p.addOffloader deviceId devInterface read_trace_init).exception.isSome = true ↔
        ∃ e, read_trace_init (p.newOffloader deviceId devInterface) = Except.error e) ∧
      (∀ e, read_trace_init (p.newOffloader deviceId devInterface) = Except.error e →
        (p.addOffloader deviceId devInterface read_trace_init).exception = some e ∧
        (p.addOffloader deviceId devInterface read_trace_init).plugin = p) ∧
      (∀ r, read_trace_init (p.newOffloader deviceId devInterface) = Except.ok r →
        (p.addOffloader deviceId devInterface read_trace_init).exception = none ∧
        (p.addOffloader deviceId devInterface read_trace_init).plugin.offloaders.find deviceId
          = some (p.newOffloader deviceId devInterface) ∧
        (∀ k, k ≠ deviceId →
          (p.addOffloader deviceId devInterface read_trace_init).plugin.offloaders.find k
            = p.offloaders.find k) ∧
        (p.addOffloader deviceId devInterface read_trace_init).plugin.writers = p.writers) := by
  unfold DeviceOffloadPlugin.addOffloader DeviceOffloadPlugin.newOffloader
  simp only [h, Bool.not_true, Bool.false_eq_true, if_false]
  cases hinit : read_trace_init (DeviceTraceOffload.mk devInterface
      (TraceLoggerCreatingDeviceEvents.mk deviceId) p.continuous_trace_interval_ms
      p.trace_buffer_size p.continuous_trace) with
  | error e => simp
  | ok r =>
    refine ⟨rfl, ⟨fun hs => ?_, fun ⟨e, he⟩ => ?_⟩, fun e he => ?_, fun _ _ => ⟨rfl, ?_, ?_, rfl⟩⟩
    · exact absurd hs (by simp)
    · exact Except.noConfusion he
    · exact Except.noConfusion he
    · exact lookup_mapAssign_self _ _ _
    · exact fun k hk => lookup_mapAssign_other _ _ _ k hk

/-- The amended C10 on a plugin that already has an offloader for device 3, with
an initialisation that throws. -/
theorem addOffloader_init_witness :
    sampleBusy.active = true ∧
      ((sampleBusy.addOffloader 3 sampleDev initThrows).calls
          = [Call.read_trace_init (sampleBusy.newOffloader 3 sampleDev)] ∧
        ((sampleBusy.addOffloader 3 sampleDev initThrows).exception.isSome = true ↔
          ∃ e, initThrows (sampleBusy.newOffloader 3 sampleDev) = Except.error e) ∧
        (∀ e, initThrows (sampleBusy.newOffloader 3 sampleDev) = Except.error e →
          (sampleBusy.addOffloader 3 sampleDev initThrows).exception = some e ∧
          (sampleBusy.addOffloader 3 sampleDev initThrows).plugin = sampleBusy) ∧
        (∀ r, initThrows (sampleBusy.newOffloader 3 sampleDev) = Except.ok r →
          (sampleBusy.addOffloader 3 sampleDev initThrows).exception = none ∧
          (sampleBusy.addOffloader 3 sampleDev initThrows).plugin.offloaders.find 3
            = some (sampleBusy.newOffloader 3 sampleDev) ∧
          (∀ k, k ≠ 3 →
            (sampleBusy.addOffloader 3 sampleDev initThrows).plugin.offloaders.find k
              = sampleBusy.offloaders.find k) ∧
          (sampleBusy.addOffloader 3 sampleDev initThrows).plugin.writers
            = sampleBusy.writers)) :=
  ⟨by decide, addOffloader_init sampleBusy 3 sampleDev initThrows (by decide)⟩

/-! ## Offloaders and writers over sequences of calls -/

theorem mem_keys_mapAssign {α : Type} (l : List (Nat × α)) (k : Nat) (v : α) (x : Nat)
    (hx : x ∈ (mapAssign l k v).map Prod.fst) : x = k ∨ x ∈ l.map Prod.fst := by
  induction l with
  | nil => simpa [mapAssign] using hx
  | cons hd tl ih =>
    unfold mapAssign at hx
    split_ifs at hx with h1 h2
    · simpa using hx
    · subst h2; simpa using hx
    · simp only [List.map_cons, List.mem_cons] at hx ⊢
      rcases hx with hx | hx
      · exact Or.inr (Or.inl hx)
      · rcases ih hx with h | h
        · exact Or.inl h
        · exact Or.inr (Or.inr h)

/-- No call changes `active`. -/
theorem apply_active {ε ρ : Type} (p : DeviceOffloadPlugin) (op : Op ε ρ) :
    (Op.apply p op).active = p.active := by
  cases op with
  | addDevice sysfsPath env =>
    simp only [Op.apply, DeviceOffloadPlugin.addDevice]
    split_ifs <;> rfl
  | addOffloader deviceId devInterface read_trace_init =>
    simp only [Op.apply, DeviceOffloadPlugin.addOffloader]
    split_ifs
    · rfl
    · cases read_trace_init _ <;> rfl
  | configureTraceIP config devInterface => rfl
  | writeAll openNewFiles =>
    simp only [Op.apply, DeviceOffloadPlugin.writeAll]
    split_ifs <;> rfl

/-- A call adds a writer for `d` exactly when it is an `addDevice` on an active
plugin that the database answers with `d`. -/
theorem writersFor_apply {ε ρ : Type} (p : DeviceOffloadPlugin) (op : Op ε ρ) (d : Nat) :
    writersFor (Op.apply p op) d =
      writersFor p d + (if p.active = true ∧ Op.registers d op = true then 1 else 0) := by
  cases op with
  | addDevice sysfsPath env =>
    cases hact : p.active
    · simp [Op.apply, DeviceOffloadPlugin.addDevice, hact]
    · by_cases hd : env.deviceId = d
      · simp [Op.apply, DeviceOffloadPlugin.addDevice, hact, writersFor, Op.registers, hd,
          List.countP_append]
      · simp [Op.apply, DeviceOffloadPlugin.addDevice, hact, writersFor, Op.registers, hd,
          List.countP_append]
  | addOffloader deviceId devInterface read_trace_init =>
    cases hact : p.active
    · simp [Op.apply, DeviceOffloadPlugin.addOffloader, Op.registers, hact]
    · simp only [Op.apply, DeviceOffloadPlugin.addOffloader, Op.registers, hact]
      cases read_trace_init _ <;> simp [writersFor]
  | configureTraceIP config devInterface =>
    simp [Op.apply, DeviceOffloadPlugin.configureTraceIP, Op.registers]
  | writeAll openNewFiles =>
    cases hact : p.active <;>
      simp [Op.apply, DeviceOffloadPlugin.writeAll, Op.registers, hact]

/-- A call adds the key `k` to the offloader map only when it is an
`addOffloader` for `k`. -/
theorem keys_apply {ε ρ : Type} (p : DeviceOffloadPlugin) (op : Op ε ρ) (k : Nat)
    (hk : k ∈ (Op.apply p op).offloaders.entries.map Prod.fst) :
    k ∈ p.offloaders.entries.map Prod.fst ∨ Op.attachedId op = some k := by
  cases op with
  | addDevice sysfsPath env =>
    simp only [Op.apply, DeviceOffloadPlugin.addDevice] at hk
    split_ifs at hk <;> exact Or.inl hk
  | addOffloader deviceId devInterface read_trace_init =>
    simp only [Op.apply, DeviceOffloadPlugin.addOffloader] at hk
    split_ifs at hk
    · exact Or.inl hk
    · cases hinit : read_trace_init (DeviceTraceOffload.mk devInterface
          (TraceLoggerCreatingDeviceEvents.mk deviceId) p.continuous_trace_interval_ms
          p.trace_buffer_size p.continuous_trace) with
      | error e =>
        rw [hinit] at hk
        exact Or.inl hk
      | ok r =>
        rw [hinit] at hk
        rcases mem_keys_mapAssign _ _ _ _ hk with h | h
        · exact Or.inr (by simp [Op.attachedId, h])
        · exact Or.inl h
  | configureTraceIP config devInterface => exact Or.inl hk
  | writeAll openNewFiles =>
    simp only [Op.apply, DeviceOffloadPlugin.writeAll] at hk
    split_ifs at hk <;> exact Or.inl hk

/-- Calls leave an inactive plugin as it is. -/
theorem apply_inactive {ε ρ : Type} (p : DeviceOffloadPlugin) (op : Op ε ρ)
    (h : p.active = false) : Op.apply p op = p := by
  cases op <;>
    simp [Op.apply, DeviceOffloadPlugin.addDevice, DeviceOffloadPlugin.addOffloader,
      DeviceOffloadPlugin.configureTraceIP, DeviceOffloadPlugin.writeAll, h]

theorem run_inactive {ε ρ : Type} (ops : List (Op ε ρ)) (p : DeviceOffloadPlugin)
    (h : p.active = false) : run p ops = p := by
  induction ops with
  | nil => rfl
  | cons op rest ih =>
    show run (Op.apply p op) rest = p
    rw [apply_inactive p op h, ih]

theorem run_active {ε ρ : Type} (ops : List (Op ε ρ)) (p : DeviceOffloadPlugin) :
    (run p ops).active = p.active := by
  induction ops generalizing p with
  | nil => rfl
  | cons op rest ih =>
    show (run (Op.apply p op) rest).active = p.active
    rw [ih, apply_active]

/-- Writers for `d` after a sequence of calls on an active plugin: those there
before plus one per `addDevice` call answered with `d`. -/
theorem writersFor_run {ε ρ : Type} (ops : List (Op ε ρ)) (p : DeviceOffloadPlugin) (d : Nat)
    (h : p.active = true) :
    writersFor (run p ops) d = writersFor p d + registrations ops d := by
  induction ops generalizing p with
  | nil => simp [run, registrations]
  | cons op rest ih =>
    show writersFor (run (Op.apply p op) rest) d = _
    rw [ih (Op.apply p op) (by rw [apply_active, h]), writersFor_apply]
    unfold registrations
    rw [List.countP_cons]
    simp only [h, true_and]
    omega

/-- Keys of the offloader map after a sequence of calls: keys there before or
ids handed to `addOffloader`. -/
theorem keys_run {ε ρ : Type} (ops : List (Op ε ρ)) (p : DeviceOffloadPlugin) (k : Nat)
    (hk : k ∈ (run p ops).offloaders.entries.map Prod.fst) :
    k ∈ p.offloaders.entries.map Prod.fst ∨ k ∈ attachedIds ops := by
  induction ops generalizing p with
  | nil => exact Or.inl hk
  | cons op rest ih =>
    rcases ih (Op.apply p op) hk with h | h
    · rcases keys_apply p op k h with h' | h'
      · exact Or.inl h'
      · exact Or.inr (by simp [attachedIds, List.filterMap_cons, h'])
    · right
      unfold attachedIds at h ⊢
      rw [List.filterMap_cons]
      cases Op.attachedId op with
      | none => exact h
      | some a => exact List.mem_cons_of_mem _ h

/-- C7, as stated, fails: one `addOffloader(0, …)` on the freshly built active
plugin leaves an offloader for device 0 and no writer at all. -/
theorem attach_without_register_breaks_pairing :
    ¬ OneWriterPerOffloader
        (run sampleActive [(Op.addOffloader 0 sampleDev initReturns : Op String Bool)]) := by
  decide

/-- C7 (amended): after any sequence of `addDevice`, `addOffloader`,
`configureTraceIP` and `writeAll` calls on a freshly constructed plugin, in
which each device id handed to `addOffloader` is the id the database returned
to exactly one `addDevice` call of the sequence, every offloader in the map has
exactly one writer with its device id. -/
theorem oneWriterPerOffloader_of_paired {ε ρ : Type} (claimed : Bool) (config : Config)
    (extract : String → Nat) (indeterminate : Indeterminate) (ops : List (Op ε ρ))
    (h : ∀ d ∈ attachedIds ops, registrations ops d = 1) :
    OneWriterPerOffloader
      (run (DeviceOffloadPlugin.construct claimed config extract indeterminate).1 ops) := by
  intro e he
  have hkey : e.1 ∈ (run (DeviceOffloadPlugin.construct claimed config extract
      indeterminate).1 ops).offloaders.entries.map Prod.fst :=
    List.mem_map_of_mem Prod.fst he
  cases claimed with
  | false =>
    rw [run_inactive ops _ (by simp [DeviceOffloadPlugin.construct])] at hkey
    simp [DeviceOffloadPlugin.construct, OffloaderMap.empty, OffloaderMap.entries] at hkey
  | true =>
    rcases keys_run ops _ e.1 hkey with h0 | h0
    · simp [DeviceOffloadPlugin.construct, OffloaderMap.empty, OffloaderMap.entries] at h0
    · rw [writersFor_run ops _ e.1 (by simp [DeviceOffloadPlugin.construct]), h e.1 h0]
      simp [writersFor, DeviceOffloadPlugin.construct]

/-- The amended C7 on the plugin built after a granted claim, for the calls
`addDevice` (answered with id 1), `configureTraceIP`, `addOffloader(1, …)`,
`writeAll(false)`. -/
theorem oneWriterPerOffloader_of_paired_witness :
    (∀ d ∈ attachedIds
        [ (Op.addDevice "/sys/bus/pci/devices/0000:01:00.1" (sampleEnv 1) : Op String Bool),
          Op.configureTraceIP sampleConfig sampleDev,
          Op.addOffloader 1 sampleDev initReturns,
          Op.writeAll false ],
      registrations
        [ (Op.addDevice "/sys/bus/pci/devices/0000:01:00.1" (sampleEnv 1) : Op String Bool),
          Op.configureTraceIP sampleConfig sampleDev,
          Op.addOffloader 1 sampleDev initReturns,
          Op.writeAll false ] d = 1) ∧
      OneWriterPerOffloader
        (run (DeviceOffloadPlugin.construct true sampleConfig sampleExtract
            (Indeterminate.mk 0 false 0)).1
          [ (Op.addDevice "/sys/bus/pci/devices/0000:01:00.1" (sampleEnv 1) : Op String Bool),
            Op.configureTraceIP sampleConfig sampleDev,
            Op.addOffloader 1 sampleDev initReturns,
            Op.writeAll false ]) :=
  ⟨by decide,
    oneWriterPerOffloader_of_paired true sampleConfig sampleExtract (Indeterminate.mk 0 false 0)
      [ (Op.addDevice "/sys/bus/pci/devices/0000:01:00.1" (sampleEnv 1) : Op String Bool),
        Op.configureTraceIP sampleConfig sampleDev,
        Op.addOffloader 1 sampleDev initReturns,
        Op.writeAll false ]
      (by decide)⟩

end xdp
